import Mathlib

/-
Verification of the dual-listener server scaffold (package `server`,
file `server/server.go`) against its natural-language specification.

The Go code is shallowly embedded: the `Config` struct, the construction
function `New`, the middleware/interceptor chains it builds, the
HTTP-over-gRPC bridge registration performed by `Run`, and the
post-signal shutdown sequence of `Run` are all modelled as executable
Lean definitions.  External collaborators that the repository uses but
whose code is not part of it (the `middleware` helpers, the `httpgrpc`
bridge, the `signals` handler, the Prometheus registry, the OS socket
table) are modelled from the specification's description of them; each
such definition carries a doc comment saying so.
-/

/-- An in-process HTTP request: method, path and body. -/
structure Request where
  method : String
  path : String
  body : String
deriving DecidableEq

/-- An HTTP response: numeric status code and body bytes. -/
structure Response where
  status : Nat
  body : String
deriving DecidableEq

/-- Observable side effects of the request pipeline: one Prometheus
histogram observation, one log line, one tracing span, or a custom
marker (used to observe generic middleware call order). -/
inductive Event where
  | sample
  | logLine
  | span
  | custom (tag : String)
deriving DecidableEq

/-- A handler maps a request to a response together with the ordered
list of observable effects the call produced. -/
abbrev Handler := Request → Response × List Event

/-- A route entry of the mux router.  `subtree := true` models a
path-subtree registration (the code registers the debug endpoints for a
whole path subtree), `subtree := false` an exact-path registration.
The route-matching implementation itself is an out-of-scope external
collaborator, so matching is modelled as first-match-wins. -/
structure Route where
  subtree : Bool
  path : String
  handler : Request → Response

/-- The route table of the mux router. -/
abbrev Router := List Route

/-- Whether a route entry matches a request. -/
def routeMatches (rt : Route) (req : Request) : Bool :=
  cond rt.subtree (req.path.startsWith rt.path) (req.path == rt.path)

/-- Dispatch a request against the route table: the first matching
route's handler answers; otherwise the router answers 404. -/
def routeResponse (router : Router) (req : Request) : Response :=
  match router.find? (fun rt => routeMatches rt req) with
  | some rt => rt.handler req
  | none => { status := 404, body := "404 page not found\n" }

/-- The router as a handler.  Dispatching through the bare route table
produces no pipeline effects of its own. -/
def dispatch (router : Router) : Handler :=
  fun req => (routeResponse router req, [])

/-- Modelled from the spec: `middleware.Merge` (the middleware package
is not part of this repository).  It composes an ordered list of
transformers into one wrapper, strictly left-to-right, so the first
list entry is the outermost wrapper. -/
def Merge {H : Type} (ms : List (H → H)) (h : H) : H :=
  ms.foldr (fun m acc => m acc) h

/-- Whether a status code counts as a success for logging purposes
(non-successes are always logged, successes only when enabled). -/
def isSuccessStatus (s : Nat) : Bool :=
  decide (100 ≤ s) && decide (s < 400)

/-- Modelled from the spec: `middleware.Log` (not part of this
repository).  After the inner handler returns it emits one log line;
success-path logging is gated by the success-logging flag, failures are
always logged.  The response passes through unchanged. -/
def logMiddleware (logSuccess : Bool) : Handler → Handler :=
  fun h r =>
    ((h r).1, (h r).2 ++ cond (logSuccess || !(isSuccessStatus (h r).1.status)) [Event.logLine] [])

/-- Modelled from the spec: `middleware.Instrument` (not part of this
repository).  Records exactly one histogram observation when the inner
handler returns; the response passes through unchanged. -/
def instrumentMiddleware : Handler → Handler :=
  fun h r => ((h r).1, (h r).2 ++ [Event.sample])

/-- Modelled from the spec: the `nethttp` trace-context middleware (not
part of this repository).  Opens a span around the inner handler; the
response passes through unchanged. -/
def tracingMiddleware : Handler → Handler :=
  fun h r => ((h r).1, Event.span :: (h r).2)

/-- Modelled from the spec: `middleware.ServerLoggingInterceptor` (not
part of this repository).  The gRPC-side logging interceptor: one log
line per call, success-path logging gated by the flag, failures always
logged. -/
def serverLoggingInterceptor (logSuccess : Bool) : Handler → Handler :=
  fun h r =>
    ((h r).1, (h r).2 ++ cond (logSuccess || !(isSuccessStatus (h r).1.status)) [Event.logLine] [])

/-- Modelled from the spec: `middleware.ServerInstrumentInterceptor`
(not part of this repository).  The gRPC-side latency interceptor:
exactly one histogram observation per call. -/
def serverInstrumentInterceptor : Handler → Handler :=
  fun h r => ((h r).1, (h r).2 ++ [Event.sample])

/-- Modelled from the spec: `otgrpc.OpenTracingServerInterceptor` (not
part of this repository).  Opens a span around the call. -/
def openTracingServerInterceptor : Handler → Handler :=
  fun h r => ((h r).1, Event.span :: (h r).2)

/-- The `Config` struct of `server.go`: metrics namespace, logging
flag, the two listen ports, the four durations, and the two
user-supplied transformer lists (durations as abstract time units). -/
structure Config where
  metricsNamespace : String
  logSuccess : Bool
  httpListenPort : Nat
  grpcListenPort : Nat
  serverGracefulShutdownTimeout : Nat
  httpServerReadTimeout : Nat
  httpServerWriteTimeout : Nat
  httpServerIdleTimeout : Nat
  grpcMiddleware : List (Handler → Handler)
  httpMiddleware : List (Handler → Handler)

/-- The fully-qualified Prometheus name of the request-duration
histogram built by `New`: namespace joined with
`request_duration_seconds` (empty namespace contributes nothing). -/
def fqName (cfg : Config) : String :=
  (cond (cfg.metricsNamespace == "") "" (cfg.metricsNamespace ++ "_")) ++
    "request_duration_seconds"

/-- The gRPC interceptor chain assembled by `New` (server.go lines
101-106): the three built-ins, then the user-supplied interceptors
appended. -/
def grpcChainOf (cfg : Config) : List (Handler → Handler) :=
  [serverLoggingInterceptor cfg.logSuccess,
   serverInstrumentInterceptor,
   openTracingServerInterceptor] ++ cfg.grpcMiddleware

/-- The HTTP middleware chain assembled by `New` (server.go lines
118-130): the three built-ins, then the user-supplied middleware
appended. -/
def httpChainOf (cfg : Config) : List (Handler → Handler) :=
  [logMiddleware cfg.logSuccess,
   instrumentMiddleware,
   tracingMiddleware] ++ cfg.httpMiddleware

/-- A service registered on the gRPC server.  `server.go` registers
exactly one: the HTTP-over-gRPC bridge (in `Run`, line 158). -/
inductive GrpcService where
  | httpOverGrpc
deriving DecidableEq

/-- The `Server` aggregate as built by `New`: the configured timeouts
carried by the HTTP server, the two composed transformer chains, the
route table, the gRPC service registrations, the histogram's registered
name, and whether any serving activity has started. -/
structure ServerModel where
  cfg : Config
  readTimeout : Nat
  writeTimeout : Nat
  idleTimeout : Nat
  httpChain : List (Handler → Handler)
  grpcChain : List (Handler → Handler)
  router : Router
  grpcServices : List GrpcService
  histogramName : String
  serving : Bool

/-- How `New` can fail: a listener bind error on one of the two ports,
or the panic raised by the Prometheus registry on registering a second
collector with an already-registered fully-qualified name. -/
inductive NewError where
  | bind (port : Nat)
  | panicDuplicateMetric (name : String)
deriving DecidableEq

/-- The routes `New` installs on the fresh mux router (server.go lines
114-117): the metrics endpoint, the traces endpoint and the debug
subtree.  Their bodies belong to external collaborators and are
placeholders. -/
def baseRouter : Router :=
  [{ subtree := false, path := "/metrics", handler := fun _ => { status := 200, body := "metrics" } },
   { subtree := false, path := "/traces", handler := fun _ => { status := 200, body := "traces" } },
   { subtree := true, path := "/debug/pprof", handler := fun _ => { status := 200, body := "pprof" } }]

/-- The `Server` value `New` returns on success (server.go lines
91-148): histogram built, both chains composed, HTTP server configured
with the read/write/idle timeouts, fresh router, no gRPC service
registered yet, no serving activity started. -/
def mkServer (cfg : Config) : ServerModel :=
  { cfg := cfg
    readTimeout := cfg.httpServerReadTimeout
    writeTimeout := cfg.httpServerWriteTimeout
    idleTimeout := cfg.httpServerIdleTimeout
    httpChain := httpChainOf cfg
    grpcChain := grpcChainOf cfg
    router := baseRouter
    grpcServices := []
    histogramName := fqName cfg
    serving := false }

/-- The embedding of `New` (server.go lines 79-148).  The ambient
state it interacts with is modelled explicitly: `net` is the set of
TCP ports with an open listener (the OS socket table), `reg` the set of
fully-qualified collector names in the process-wide Prometheus
registry.  `New` binds the HTTP port first, then the gRPC port, then
registers the histogram with `MustRegister` (a panic on duplicates),
then assembles the server.  The returned `net`/`reg` are the ambient
state after the call, whichever way it ends: in particular a listener
opened before a later failure stays open, exactly as in the code,
which returns the bare error without closing anything. -/
def New (cfg : Config) (net : List Nat) (reg : List String) :
    Except NewError ServerModel × List Nat × List String :=
  if cfg.httpListenPort ∈ net then
    (Except.error (NewError.bind cfg.httpListenPort), net, reg)
  else if cfg.grpcListenPort ∈ cfg.httpListenPort :: net then
    (Except.error (NewError.bind cfg.grpcListenPort), cfg.httpListenPort :: net, reg)
  else if fqName cfg ∈ reg then
    (Except.error (NewError.panicDuplicateMetric (fqName cfg)),
     cfg.grpcListenPort :: cfg.httpListenPort :: net, reg)
  else
    (Except.ok (mkServer cfg),
     cfg.grpcListenPort :: cfg.httpListenPort :: net, fqName cfg :: reg)

/-- Whether `New` succeeded. -/
def newOk (cfg : Config) (net : List Nat) (reg : List String) : Bool :=
  match (New cfg net reg).1 with
  | Except.ok _ => true
  | Except.error _ => false

/-- The gRPC service registrations of the server `New` returned, when
it succeeded. -/
def newServices (cfg : Config) (net : List Nat) (reg : List String) :
    Option (List GrpcService) :=
  match (New cfg net reg).1 with
  | Except.ok s => some s.grpcServices
  | Except.error _ => none

/-- The set of open listener ports after a call to `New`. -/
def newNet (cfg : Config) (net : List Nat) (reg : List String) : List Nat :=
  (New cfg net reg).2.1

/-- The Prometheus registry contents after a call to `New`. -/
def newReg (cfg : Config) (net : List Nat) (reg : List String) : List String :=
  (New cfg net reg).2.2

/-- The bridge registration `Run` performs before serving (server.go
line 158): `httpgrpc.RegisterHTTPServer(s.GRPC, httpgrpc.NewServer(s.HTTP))`. -/
def registerBridge (s : ServerModel) : ServerModel :=
  { s with grpcServices := s.grpcServices ++ [GrpcService.httpOverGrpc] }

/-- Modelled from the spec: `httpgrpc.NewServer` (not part of this
repository).  The bridge reconstructs the HTTP request from its RPC
envelope and dispatches it directly against the route table it was
given — `Run` hands it the bare mux router `s.HTTP`, not the
middleware-wrapped handler — capturing status and body unchanged. -/
def httpgrpcServer (router : Router) : Handler :=
  dispatch router

/-- The handler the native HTTP listener serves (server.go line 135):
the composed HTTP middleware chain wrapped around the router. -/
def nativeHandler (cfg : Config) (router : Router) : Handler :=
  Merge (httpChainOf cfg) (dispatch router)

/-- The effective pipeline of a request arriving over the RPC bridge:
the gRPC interceptor chain wrapped around the bridge, which itself
dispatches straight to the router. -/
def bridgedHandler (cfg : Config) (router : Router) : Handler :=
  Merge (grpcChainOf cfg) (httpgrpcServer router)

/-- Parameters of one shutdown scenario, in abstract time units
counted from the instant the stop signal is received: the configured
graceful-shutdown timeout, the time the in-flight gRPC calls need to
drain, and the time the in-flight HTTP requests need to drain. -/
structure ShutdownInput where
  timeout : Nat
  grpcDrain : Nat
  httpDrain : Nat
deriving DecidableEq

/-- The observable timeline of the post-signal part of `Run`
(server.go lines 162-170 plus the deferred calls), with every instant
counted from the stop signal. -/
structure ShutdownTrace where
  timerSpawned : Bool
  cancelAt : Nat
  grpcHardStopAt : Nat
  grpcStopStart : Nat
  grpcStopEnd : Nat
  grpcForced : Bool
  httpShutdownStart : Nat
  httpShutdownEnd : Nat
  httpForced : Bool
  stoppedAt : Nat
deriving DecidableEq

/-- The embedding of `Run` after `s.handler.Loop()` returns.  `Run`
unconditionally spawns the timer goroutine (sleep the timeout, then
`cancel()` and `s.GRPC.Stop()`), then returns, at which point its
deferred calls execute in last-in-first-out order: first
`s.GRPC.GracefulStop()`, which blocks until the gRPC calls drain or the
timer's hard stop aborts it, and only then `s.httpServer.Shutdown`,
which blocks until the HTTP requests drain or the timer cancels its
context.  `Run` has fully returned — the server is stopped — when the
second deferred call returns. -/
def runShutdown (i : ShutdownInput) : ShutdownTrace :=
  { timerSpawned := true
    cancelAt := i.timeout
    grpcHardStopAt := i.timeout
    grpcStopStart := 0
    grpcStopEnd := min i.grpcDrain i.timeout
    grpcForced := decide (i.timeout < i.grpcDrain)
    httpShutdownStart := min i.grpcDrain i.timeout
    httpShutdownEnd :=
      min (min i.grpcDrain i.timeout + i.httpDrain) (max (min i.grpcDrain i.timeout) i.timeout)
    httpForced :=
      decide (max (min i.grpcDrain i.timeout) i.timeout < min i.grpcDrain i.timeout + i.httpDrain)
    stoppedAt :=
      min (min i.grpcDrain i.timeout + i.httpDrain) (max (min i.grpcDrain i.timeout) i.timeout) }

/-- Modelled from the spec: the `signals.Handler` (not part of this
repository).  Its only observable state is whether a stop has been
requested; `Loop` blocks until it has. -/
structure SignalHandler where
  stopRequested : Bool
deriving DecidableEq

/-- Modelled from the spec: `signals.NewHandler` — a fresh handler with
no stop requested yet. -/
def signalsNewHandler : SignalHandler :=
  { stopRequested := false }

/-- Modelled from the spec: `Handler.Stop`, which `Server.Stop` calls
(server.go line 174).  Requesting a stop is idempotent: it records the
request and nothing else. -/
def SignalHandler.stop (_h : SignalHandler) : SignalHandler :=
  { stopRequested := true }

/-- What `Run` observably does around `s.handler.Loop()`: whether it is
still blocked in `Loop`, and how many times the post-signal shutdown
sequence has executed. -/
structure RunOutcome where
  runBlocked : Bool
  shutdownRuns : Nat
deriving DecidableEq

/-- The embedding of `Run`'s interaction with the signal handler:
`Loop` returns exactly when a stop has been requested, and the shutdown
sequence that follows it executes exactly once, when `Loop` returns. -/
def runWith (h : SignalHandler) : RunOutcome :=
  cond h.stopRequested { runBlocked := false, shutdownRuns := 1 }
    { runBlocked := true, shutdownRuns := 0 }

/-- A generic observable transformer named `n`: it emits an
`n ++ "-before"` marker before calling the inner handler and an
`n ++ "-after"` marker after it returns, leaving the response
unchanged.  Used to observe the call order produced by `Merge`. -/
def namedMiddleware (n : String) : Handler → Handler :=
  fun h r =>
    ((h r).1, Event.custom (n ++ "-before") :: ((h r).2 ++ [Event.custom (n ++ "-after")]))

/-- A concrete configuration with free ports, success logging enabled
and no user-supplied transformers. -/
def cfgA : Config :=
  { metricsNamespace := "app"
    logSuccess := true
    httpListenPort := 80
    grpcListenPort := 9095
    serverGracefulShutdownTimeout := 5
    httpServerReadTimeout := 5
    httpServerWriteTimeout := 7
    httpServerIdleTimeout := 120
    grpcMiddleware := []
    httpMiddleware := [] }

/-- A concrete configuration whose gRPC port will collide with an
already-open listener. -/
def cfgB : Config :=
  { metricsNamespace := ""
    logSuccess := false
    httpListenPort := 8080
    grpcListenPort := 9095
    serverGracefulShutdownTimeout := 5
    httpServerReadTimeout := 5
    httpServerWriteTimeout := 5
    httpServerIdleTimeout := 120
    grpcMiddleware := []
    httpMiddleware := [] }

/-- A first configuration for double-construction scenarios, metrics
namespace `alpha`. -/
def cfgC : Config :=
  { metricsNamespace := "alpha"
    logSuccess := false
    httpListenPort := 8080
    grpcListenPort := 9095
    serverGracefulShutdownTimeout := 5
    httpServerReadTimeout := 5
    httpServerWriteTimeout := 5
    httpServerIdleTimeout := 120
    grpcMiddleware := []
    httpMiddleware := [] }

/-- A second configuration with fresh ports and a different metrics
namespace `beta`. -/
def cfgD : Config :=
  { metricsNamespace := "beta"
    logSuccess := false
    httpListenPort := 8081
    grpcListenPort := 9096
    serverGracefulShutdownTimeout := 5
    httpServerReadTimeout := 5
    httpServerWriteTimeout := 5
    httpServerIdleTimeout := 120
    grpcMiddleware := []
    httpMiddleware := [] }

/-- A second configuration with fresh ports but the same metrics
namespace `alpha` as `cfgC`. -/
def cfgE : Config :=
  { metricsNamespace := "alpha"
    logSuccess := false
    httpListenPort := 8082
    grpcListenPort := 9097
    serverGracefulShutdownTimeout := 5
    httpServerReadTimeout := 5
    httpServerWriteTimeout := 5
    httpServerIdleTimeout := 120
    grpcMiddleware := []
    httpMiddleware := [] }

/-- A one-route application route table. -/
def router0 : Router :=
  [{ subtree := false, path := "/ping", handler := fun _ => { status := 200, body := "pong" } }]

/-- A concrete request for the `/ping` route. -/
def req0 : Request :=
  { method := "GET", path := "/ping", body := "" }

/-- C4: for every transformer list `[A, B]` and base handler `H`, the
handler built by the middleware chain builder produces, for any
request, the call order A-before, B-before, H, B-after, A-after: the
first list entry is the outermost wrapper, seeing the request first
and the response last, and the response passes through unchanged. -/
theorem c4_merge_wrap_order (a b : String) (base : Handler) (r : Request) :
    (Merge [namedMiddleware a, namedMiddleware b] base r).2
      = Event.custom (a ++ "-before") :: Event.custom (b ++ "-before") ::
          ((base r).2 ++ [Event.custom (b ++ "-after"), Event.custom (a ++ "-after")])
    ∧ (Merge [namedMiddleware a, namedMiddleware b] base r).1 = (base r).1 := by
  constructor
  · simp [Merge, namedMiddleware]
  · rfl

/-- C5: on every successful construction, both transformer chains hold
exactly the three built-ins — logging, latency instrumentation,
trace-context propagation, in that order — followed by all of the
user-supplied transformers of the configuration. -/
theorem c5_chain_contents (cfg : Config) (net : List Nat) (reg : List String)
    (h1 : cfg.httpListenPort ∉ net)
    (h2 : cfg.grpcListenPort ∉ cfg.httpListenPort :: net)
    (h3 : fqName cfg ∉ reg) :
    ∃ s : ServerModel, (New cfg net reg).1 = Except.ok s
      ∧ s.grpcChain
          = [serverLoggingInterceptor cfg.logSuccess,
             serverInstrumentInterceptor,
             openTracingServerInterceptor] ++ cfg.grpcMiddleware
      ∧ s.httpChain
          = [logMiddleware cfg.logSuccess,
             instrumentMiddleware,
             tracingMiddleware] ++ cfg.httpMiddleware := by
  refine ⟨mkServer cfg, ?_, rfl, rfl⟩
  simp [New, h1, h2, h3]

/-- Witness for C5 at a concrete configuration and empty ambient
state. -/
theorem c5_chain_contents_witness :
    (cfgA.httpListenPort ∉ ([] : List Nat))
    ∧ (cfgA.grpcListenPort ∉ cfgA.httpListenPort :: ([] : List Nat))
    ∧ (fqName cfgA ∉ ([] : List String))
    ∧ (∃ s : ServerModel, (New cfgA [] []).1 = Except.ok s
        ∧ s.grpcChain
            = [serverLoggingInterceptor cfgA.logSuccess,
               serverInstrumentInterceptor,
               openTracingServerInterceptor] ++ cfgA.grpcMiddleware
        ∧ s.httpChain
            = [logMiddleware cfgA.logSuccess,
               instrumentMiddleware,
               tracingMiddleware] ++ cfgA.httpMiddleware) :=
  ⟨by decide, by decide, by decide,
   c5_chain_contents cfgA [] [] (by decide) (by decide) (by decide)⟩

/-- C1: a request arriving over the HTTP-over-RPC bridge is dispatched
against the same route table as the native HTTP listener without
passing through the HTTP middleware chain, so each path records
exactly one instrumentation sample and one log line per logical
request, and status and body are identical on both paths.  Stated for
configurations without user-supplied transformers (the invariant is
about the scaffold's own pipeline) and with success logging enabled
(so the single log line is observable for every status). -/
theorem c1_bridge_single_pipeline (cfg : Config) (router : Router) (req : Request)
    (hh : cfg.httpMiddleware = [])
    (hg : cfg.grpcMiddleware = [])
    (hl : cfg.logSuccess = true) :
    (bridgedHandler cfg router req).1 = (nativeHandler cfg router req).1
    ∧ (nativeHandler cfg router req).1 = (routeResponse router req)
    ∧ List.count Event.sample (nativeHandler cfg router req).2 = 1
    ∧ List.count Event.logLine (nativeHandler cfg router req).2 = 1
    ∧ List.count Event.sample (bridgedHandler cfg router req).2 = 1
    ∧ List.count Event.logLine (bridgedHandler cfg router req).2 = 1 := by
  obtain ⟨mn, ls, hp, gp, t1, t2, t3, t4, gms, hms⟩ := cfg
  dsimp only at hh hg hl
  subst hh
  subst hg
  subst hl
  exact ⟨rfl, rfl, rfl, rfl, rfl, rfl⟩

/-- Witness for C1 at a concrete configuration, route table and
request. -/
theorem c1_bridge_single_pipeline_witness :
    cfgA.httpMiddleware = []
    ∧ cfgA.grpcMiddleware = []
    ∧ cfgA.logSuccess = true
    ∧ ((bridgedHandler cfgA router0 req0).1 = (nativeHandler cfgA router0 req0).1
        ∧ (nativeHandler cfgA router0 req0).1 = (routeResponse router0 req0)
        ∧ List.count Event.sample (nativeHandler cfgA router0 req0).2 = 1
        ∧ List.count Event.logLine (nativeHandler cfgA router0 req0).2 = 1
        ∧ List.count Event.sample (bridgedHandler cfgA router0 req0).2 = 1
        ∧ List.count Event.logLine (bridgedHandler cfgA router0 req0).2 = 1) :=
  ⟨rfl, rfl, rfl, c1_bridge_single_pipeline cfgA router0 req0 rfl rfl rfl⟩

/-- C2 (failing input): with the gRPC port already occupied, `New`
binds the HTTP listener, then fails to bind the gRPC listener and
returns the bind error — but the HTTP listener it just opened is left
open (the code returns the bare error without closing it), contrary to
the claim that no listener is left open on failure. -/
theorem c2_grpc_bind_failure_leaks_http_listener :
    (New cfgB [9095] []).1 = Except.error (NewError.bind 9095)
    ∧ cfgB.httpListenPort ∈ (New cfgB [9095] []).2.1 := by
  constructor
  · rfl
  · decide

/-- C3 (counterexample): `New` can succeed with the returned server
carrying no gRPC service registration at all — the HTTP-over-RPC
bridge is not yet registered when `New` returns, contradicting the
claim that it already is. -/
theorem c3_bridge_not_registered_by_new :
    newOk cfgA [] [] = true ∧ newServices cfgA [] [] = some [] := by
  constructor
  · rfl
  · rfl

/-- C3 (amended): on every successful construction the server is fully
formed at return time — the HTTP port is bound before the gRPC port,
the histogram is built and registered, both chains are composed, the
HTTP server carries the configured read/write/idle timeouts, and no
serving activity has started — except that the HTTP-over-RPC bridge is
not yet registered on the RPC server: its registration is the first
thing `Run` does, before serving begins. -/
theorem c3_new_fully_formed_amended (cfg : Config) (net : List Nat) (reg : List String)
    (h1 : cfg.httpListenPort ∉ net)
    (h2 : cfg.grpcListenPort ∉ cfg.httpListenPort :: net)
    (h3 : fqName cfg ∉ reg) :
    ∃ s : ServerModel, (New cfg net reg).1 = Except.ok s
      ∧ s.readTimeout = cfg.httpServerReadTimeout
      ∧ s.writeTimeout = cfg.httpServerWriteTimeout
      ∧ s.idleTimeout = cfg.httpServerIdleTimeout
      ∧ s.histogramName = fqName cfg
      ∧ s.httpChain = httpChainOf cfg
      ∧ s.grpcChain = grpcChainOf cfg
      ∧ s.serving = false
      ∧ s.grpcServices = []
      ∧ (registerBridge s).grpcServices = [GrpcService.httpOverGrpc]
      ∧ (New cfg net reg).2.2 = fqName cfg :: reg
      ∧ (∀ net0, cfg.httpListenPort ∈ net0 →
          (New cfg net0 reg).1 = Except.error (NewError.bind cfg.httpListenPort)) := by
  refine ⟨mkServer cfg, ?_, rfl, rfl, rfl, rfl, rfl, rfl, rfl, rfl, rfl, ?_, ?_⟩
  · simp [New, h1, h2, h3]
  · simp [New, h1, h2, h3]
  · intro net0 hmem
    simp [New, hmem]

/-- Witness for the amended C3 at a concrete configuration and empty
ambient state. -/
theorem c3_new_fully_formed_amended_witness :
    (cfgA.httpListenPort ∉ ([] : List Nat))
    ∧ (cfgA.grpcListenPort ∉ cfgA.httpListenPort :: ([] : List Nat))
    ∧ (fqName cfgA ∉ ([] : List String))
    ∧ (∃ s : ServerModel, (New cfgA [] []).1 = Except.ok s
        ∧ s.readTimeout = cfgA.httpServerReadTimeout
        ∧ s.writeTimeout = cfgA.httpServerWriteTimeout
        ∧ s.idleTimeout = cfgA.httpServerIdleTimeout
        ∧ s.histogramName = fqName cfgA
        ∧ s.httpChain = httpChainOf cfgA
        ∧ s.grpcChain = grpcChainOf cfgA
        ∧ s.serving = false
        ∧ s.grpcServices = []
        ∧ (registerBridge s).grpcServices = [GrpcService.httpOverGrpc]
        ∧ (New cfgA [] []).2.2 = fqName cfgA :: []
        ∧ (∀ net0, cfgA.httpListenPort ∈ net0 →
            (New cfgA net0 []).1 = Except.error (NewError.bind cfgA.httpListenPort))) :=
  ⟨by decide, by decide, by decide,
   c3_new_fully_formed_amended cfgA [] [] (by decide) (by decide) (by decide)⟩

/-- C6: whenever graceful shutdown cannot complete within the
configured graceful-shutdown timeout after the stop signal, the forced
path fires exactly at the timeout boundary — the shutdown context is
canceled and the RPC server is hard-stopped at that instant — and the
server reaches the stopped state at that same instant. -/
theorem c6_forced_stop_at_timeout (i : ShutdownInput)
    (h : i.timeout < i.grpcDrain + i.httpDrain) :
    (runShutdown i).cancelAt = i.timeout
    ∧ (runShutdown i).grpcHardStopAt = i.timeout
    ∧ (runShutdown i).stoppedAt = i.timeout := by
  refine ⟨rfl, rfl, ?_⟩
  simp only [runShutdown]
  omega

/-- Witness for C6: a shutdown needing 3 + 4 units against a timeout
of 5 units. -/
theorem c6_forced_stop_at_timeout_witness :
    (5 < 3 + 4)
    ∧ ((runShutdown { timeout := 5, grpcDrain := 3, httpDrain := 4 }).cancelAt = 5
        ∧ (runShutdown { timeout := 5, grpcDrain := 3, httpDrain := 4 }).grpcHardStopAt = 5
        ∧ (runShutdown { timeout := 5, grpcDrain := 3, httpDrain := 4 }).stoppedAt = 5) :=
  ⟨by decide,
   c6_forced_stop_at_timeout { timeout := 5, grpcDrain := 3, httpDrain := 4 } (by decide)⟩

/-- C7: requesting a stop is idempotent — a second stop request leaves
the handler state unchanged — a stop requested before `Run` reaches
its running loop still unblocks `Run`, and in every case the shutdown
sequence executes exactly once, never twice. -/
theorem c7_stop_idempotent_unblocks_run (h : SignalHandler) :
    SignalHandler.stop (SignalHandler.stop h) = SignalHandler.stop h
    ∧ runWith (SignalHandler.stop h) = { runBlocked := false, shutdownRuns := 1 }
    ∧ runWith (SignalHandler.stop signalsNewHandler)
        = { runBlocked := false, shutdownRuns := 1 } :=
  ⟨rfl, rfl, rfl⟩

/-- C8 (counterexample): with a 10-unit timeout and two transports
each needing 3 units to drain, the gRPC graceful stop runs over the
interval 0..3 and the HTTP graceful shutdown only begins at instant 3,
after the gRPC drain has fully completed — the two graceful stops are
sequential, not concurrent. -/
theorem c8_shutdown_sequential_counterexample :
    (runShutdown { timeout := 10, grpcDrain := 3, httpDrain := 3 }).grpcStopStart = 0
    ∧ (runShutdown { timeout := 10, grpcDrain := 3, httpDrain := 3 }).grpcStopEnd = 3
    ∧ (runShutdown { timeout := 10, grpcDrain := 3, httpDrain := 3 }).httpShutdownStart = 3 := by
  refine ⟨rfl, rfl, rfl⟩

/-- C8 (amended): after the stop signal the two graceful stops proceed
sequentially, not concurrently — the deferred gRPC graceful stop
starts at the signal and the deferred HTTP shutdown begins only when
the gRPC graceful stop has returned; only the forced-termination timer
applies to both transports at the same instant. -/
theorem c8_shutdown_sequential (i : ShutdownInput) :
    (runShutdown i).grpcStopStart = 0
    ∧ (runShutdown i).httpShutdownStart = (runShutdown i).grpcStopEnd
    ∧ (runShutdown i).cancelAt = (runShutdown i).grpcHardStopAt :=
  ⟨rfl, rfl, rfl⟩

/-- C9 (counterexample): a second call to `New` in the same process
does not panic for every configuration — with fresh ports and a
different metrics namespace the histogram's fully-qualified name is
new, registration succeeds, and the second construction returns a
server. -/
theorem c9_second_new_can_succeed :
    newOk cfgC [] [] = true
    ∧ newOk cfgD (newNet cfgC [] []) (newReg cfgC [] []) = true := by
  constructor
  · rfl
  · rfl

/-- C9 (amended): a second call to `New` panics via the duplicate
histogram registration exactly when it reaches the registration step —
both its listener binds succeed — and its histogram's fully-qualified
name equals that of the earlier successful call, as happens whenever
the second configuration reuses the same metrics namespace. -/
theorem c9_duplicate_namespace_panics (cfg1 cfg2 : Config) (net : List Nat) (reg : List String)
    (h1 : cfg1.httpListenPort ∉ net)
    (h2 : cfg1.grpcListenPort ∉ cfg1.httpListenPort :: net)
    (h3 : fqName cfg1 ∉ reg)
    (h4 : cfg2.httpListenPort ∉ newNet cfg1 net reg)
    (h5 : cfg2.grpcListenPort ∉ cfg2.httpListenPort :: newNet cfg1 net reg)
    (h6 : fqName cfg2 = fqName cfg1) :
    (New cfg2 (newNet cfg1 net reg) (newReg cfg1 net reg)).1
      = Except.error (NewError.panicDuplicateMetric (fqName cfg2)) := by
  have hreg : newReg cfg1 net reg = fqName cfg1 :: reg := by
    simp [newReg, New, h1, h2, h3]
  rw [hreg]
  simp [New, h4, h5, h6]

/-- Witness for the amended C9: two configurations sharing the metrics
namespace `alpha`, the second with fresh ports. -/
theorem c9_duplicate_namespace_panics_witness :
    (cfgC.httpListenPort ∉ ([] : List Nat))
    ∧ (cfgC.grpcListenPort ∉ cfgC.httpListenPort :: ([] : List Nat))
    ∧ (fqName cfgC ∉ ([] : List String))
    ∧ (cfgE.httpListenPort ∉ newNet cfgC [] [])
    ∧ (cfgE.grpcListenPort ∉ cfgE.httpListenPort :: newNet cfgC [] [])
    ∧ fqName cfgE = fqName cfgC
    ∧ (New cfgE (newNet cfgC [] []) (newReg cfgC [] [])).1
        = Except.error (NewError.panicDuplicateMetric (fqName cfgE)) :=
  ⟨by decide, by decide, by decide, by decide, by decide, rfl,
   c9_duplicate_namespace_panics cfgC cfgE [] []
     (by decide) (by decide) (by decide) (by decide) (by decide) rfl⟩

/-- C10: the timer goroutine `Run` spawns once the stop signal is
received is unconditional: even when both graceful stops complete
within the timeout — so `Run` has already returned when the timer
fires — the timer still cancels the HTTP shutdown context and
hard-stops the RPC server at the timeout instant. -/
theorem c10_timer_fires_unconditionally (i : ShutdownInput)
    (h : i.grpcDrain + i.httpDrain ≤ i.timeout) :
    (runShutdown i).stoppedAt = i.grpcDrain + i.httpDrain
    ∧ (runShutdown i).stoppedAt ≤ i.timeout
    ∧ (runShutdown i).timerSpawned = true
    ∧ (runShutdown i).cancelAt = i.timeout
    ∧ (runShutdown i).grpcHardStopAt = i.timeout := by
  refine ⟨?_, ?_, rfl, rfl, rfl⟩
  · simp only [runShutdown]
    omega
  · simp only [runShutdown]
    omega

/-- Witness for C10: a shutdown draining in 1 + 1 units against a
timeout of 5 units. -/
theorem c10_timer_fires_unconditionally_witness :
    (1 + 1 ≤ 5)
    ∧ ((runShutdown { timeout := 5, grpcDrain := 1, httpDrain := 1 }).stoppedAt = 1 + 1
        ∧ (runShutdown { timeout := 5, grpcDrain := 1, httpDrain := 1 }).stoppedAt ≤ 5
        ∧ (runShutdown { timeout := 5, grpcDrain := 1, httpDrain := 1 }).timerSpawned = true
        ∧ (runShutdown { timeout := 5, grpcDrain := 1, httpDrain := 1 }).cancelAt = 5
        ∧ (runShutdown { timeout := 5, grpcDrain := 1, httpDrain := 1 }).grpcHardStopAt = 5) :=
  ⟨by decide,
   c10_timer_fires_unconditionally { timeout := 5, grpcDrain := 1, httpDrain := 1 } (by decide)⟩
